import Mathlib

/-!
Verification of the clustered chat server (`src/index.ts`) against its design
specification. The TypeScript source is shallowly embedded below:

* the SQLite `messages` table (`id INTEGER PRIMARY KEY AUTOINCREMENT,
  client_offset TEXT UNIQUE, content TEXT`) becomes `Store`;
* `db.run("INSERT INTO messages (content, client_offset) VALUES (?, ?)")`
  becomes `dbRunInsert`;
* the `chat message` handler (lines 86-101) becomes `chatMessageDispatch` /
  `handleChatMessage`;
* the recovery replay block (lines 104-116) becomes `connectionDispatch` /
  `connectionHandler`, with `readFrom` embedding the
  `SELECT id, content FROM messages WHERE id > ?` scan;
* `io.emit` through the cluster adapter becomes `deliverBroadcast` over a
  `ClusterState` holding the sessions of every worker;
* the primary's fork loop (lines 40-55) and `server.listen` (lines 124-130)
  become `forkEnvs` / `workerMain` / `primaryStart`, including the round trip
  of the port number through the `PORT` environment-variable string.
-/

/-- A row of the `messages` table: `id` is the AUTOINCREMENT primary key
(the sequence number), `client_offset` the client-supplied idempotency token,
`content` the message payload. -/
structure Row where
  id : Nat
  client_offset : String
  content : String
deriving DecidableEq

/-- The `messages` table of one SQLite database file.  `rows` is the table
b-tree in ascending rowid order; `seqCounter` is the AUTOINCREMENT sequence
(`sqlite_sequence`), the largest id ever assigned. -/
structure Store where
  rows : List Row
  seqCounter : Nat
deriving DecidableEq

/-- Whether some row already has the given `client_offset` token
(the `UNIQUE` constraint on `client_offset`). -/
def hasToken (st : Store) (tok : String) : Bool :=
  st.rows.any (fun r => r.client_offset == tok)

/-- An error thrown by the sqlite driver.  The handler only ever inspects
`errno`; `uniqueClientOffset` records whether the fault actually is the
`UNIQUE` constraint violation on `client_offset` (information present in the
driver's error message but not consulted by the code). -/
structure SqliteErr where
  errno : Int
  uniqueClientOffset : Bool
deriving DecidableEq

/-- Outcome of `db.run` for the INSERT statement: success carries the updated
database and `result.lastID`, failure carries the error. -/
inductive DbRunResult where
  | ok (store : Store) (lastID : Nat)
  | err (e : SqliteErr)
deriving DecidableEq

/-- `db.run("INSERT INTO messages (content, client_offset) VALUES (?, ?)", msg,
clientOffset)`.  A duplicate token violates the UNIQUE constraint and throws
errno 19 (SQLITE_CONSTRAINT); otherwise AUTOINCREMENT assigns
`seqCounter + 1` as the new rowid and `lastID` reports it. -/
def dbRunInsert (st : Store) (msg clientOffset : String) : DbRunResult :=
  if hasToken st clientOffset then
    .err { errno := 19, uniqueClientOffset := true }
  else
    let newId := st.seqCounter + 1
    .ok { rows := st.rows ++ [{ id := newId, client_offset := clientOffset,
                                content := msg }],
          seqCounter := newId } newId

/-- Observable outcome of one run of the `chat message` handler:
the database afterwards, the `io.emit("chat message", msg, id)` payload if one
was published, how many times the acknowledgment `callback` ran, and whether
`console.error` logged a database error. -/
structure HandlerResult where
  store : Store
  broadcast : Option (String × Nat)
  ackCount : Nat
  logged : Bool
deriving DecidableEq

/-- The `chat message` handler's control flow (src/index.ts lines 88-101),
given the result of the awaited `db.run`:
success emits the broadcast and calls `callback()`; in the catch branch,
`if (e.errno === 19) callback(); else console.error(...)`. -/
def chatMessageDispatch (st : Store) (msg : String) :
    DbRunResult → HandlerResult
  | .ok st' lastID =>
      { store := st', broadcast := some (msg, lastID), ackCount := 1,
        logged := false }
  | .err e =>
      if e.errno == 19 then
        { store := st, broadcast := none, ackCount := 1, logged := false }
      else
        { store := st, broadcast := none, ackCount := 0, logged := true }

/-- One fault-free run of the `chat message` handler: the INSERT is attempted
on the store and its outcome dispatched. -/
def handleChatMessage (st : Store) (msg clientOffset : String) :
    HandlerResult :=
  chatMessageDispatch st msg (dbRunInsert st msg clientOffset)

/-- `SELECT id, content FROM messages WHERE id > ?`: scans the table b-tree
(ascending rowid order) keeping the rows past the offset. -/
def readFrom (st : Store) (offset : Nat) : List Row :=
  st.rows.filter (fun r => offset < r.id)

/-- Per-connection input read from the socket: the transport's
`socket.recovered` flag and `socket.handshake.auth.serverOffset`
(absent for a first-time client). -/
structure ConnInput where
  recovered : Bool
  serverOffset : Option Nat
deriving DecidableEq

/-- `socket.handshake.auth.serverOffset || 0`. -/
def effectiveOffset (i : ConnInput) : Nat :=
  i.serverOffset.getD 0

/-- Observable outcome of the connection handler's recovery block:
the `(content, id)` pairs emitted to this socket during replay, whether
`console.error("Error recovering messages:", e)` ran, and whether the session
stays active (the code never tears the socket down here). -/
structure ConnResult where
  replayed : List (String × Nat)
  replayLogged : Bool
  active : Bool
deriving DecidableEq

/-- The recovery block (src/index.ts lines 104-116), given the result of the
`db.each` read: skipped entirely when `socket.recovered`; otherwise each
returned row is emitted as `socket.emit("chat message", row.content, row.id)`,
and a read error is caught and logged, leaving the connection up. -/
def connectionDispatch (i : ConnInput) (readResult : Except String (List Row)) :
    ConnResult :=
  if i.recovered then
    { replayed := [], replayLogged := false, active := true }
  else
    match readResult with
    | .ok rows =>
        { replayed := rows.map (fun r => (r.content, r.id)),
          replayLogged := false, active := true }
    | .error _ =>
        { replayed := [], replayLogged := true, active := true }

/-- One fault-free run of the connection handler's recovery block: the
SELECT succeeds and returns the rows past `serverOffset || 0`. -/
def connectionHandler (st : Store) (i : ConnInput) : ConnResult :=
  connectionDispatch i (.ok (readFrom st (effectiveOffset i)))

/-- A live client session: its socket id, the worker process it is attached
to, and the `chat message` events pushed to it so far. -/
structure Session where
  sid : String
  worker : Nat
  inbox : List (String × Nat)
deriving DecidableEq

/-- The sessions of every worker process in the cluster. -/
structure ClusterState where
  sessions : List Session
deriving DecidableEq

/-- `io.emit("chat message", msg, id)` under the cluster adapter: the event is
delivered to every session of every worker, the sender's own included. -/
def deliverBroadcast (cs : ClusterState) (ev : String × Nat) : ClusterState :=
  { sessions := cs.sessions.map (fun s => { s with inbox := s.inbox ++ [ev] }) }

/-- A new connection joins the cluster's session set. -/
def connectSocket (cs : ClusterState) (s : Session) : ClusterState :=
  { sessions := cs.sessions ++ [s] }

/-- After the recovery block, the session stays in the cluster exactly when it
is still active. -/
def postConnect (cs : ClusterState) (s : Session) (r : ConnResult) :
    ClusterState :=
  if r.active then connectSocket cs s else cs

/-- One client submission processed on worker `w0`: the handler runs there,
a successful insert fans out through the adapter to every session, and the
acknowledgment callback fires only on the originating worker (recorded as the
list of workers at which an ack was invoked). -/
structure StepResult where
  cluster : ClusterState
  store : Store
  ackAt : List Nat
  logged : Bool
deriving DecidableEq

/-- Processing of one `chat message` event arriving at worker `w0`. -/
def processClientMessage (cs : ClusterState) (st : Store) (w0 : Nat)
    (msg clientOffset : String) : StepResult :=
  let r := handleChatMessage st msg clientOffset
  { cluster := match r.broadcast with
      | some ev => deliverBroadcast cs ev
      | none => cs,
    store := r.store,
    ackAt := List.replicate r.ackCount w0,
    logged := r.logged }

/-- A sequence of fault-free submissions against one store: returns the final
store and the sequence numbers assigned to the successful new inserts, in
submission order. -/
def runSubmissions : Store → List (String × String) → Store × List Nat
  | st, [] => (st, [])
  | st, (msg, tok) :: rest =>
      let r := handleChatMessage st msg tok
      let rec' := runSubmissions r.store rest
      match r.broadcast with
      | some (_, s) => (rec'.1, s :: rec'.2)
      | none => rec'

/-- The fixed base port: workers listen on 3000, 3001, ... . -/
def basePort : Nat := 3000

/-- The primary's fork loop (src/index.ts lines 45-49): before each
`cluster.fork()` the primary sets `process.env.PORT = (3000 + i).toString()`,
and the forked worker inherits a copy of the environment at that moment.
`(3000 + i).toString()` is the decimal rendering `Nat.repr`. -/
def forkEnvs (numCPUs : Nat) : List (Option String) :=
  (List.range numCPUs).map (fun i => some (Nat.repr (basePort + i)))

/-- `parseInt(s, 10)` as used on the PORT string; `0` stands for the `NaN`
result on a non-numeric string, which this program never produces. -/
def parseIntPort (s : String) : Nat :=
  (s.toNat?).getD 0

/-- Observable shape of one worker process: the port it serves and how many
network listeners it opened. -/
structure Worker where
  port : Nat
  listenerCount : Nat
deriving DecidableEq

/-- A worker's startup (src/index.ts lines 123-130): it reads
`parseInt(process.env.PORT || "3000", 10)` and calls `server.listen(port)`
exactly once. -/
def workerMain (envPORT : Option String) : Worker :=
  { port := parseIntPort (envPORT.getD "3000"), listenerCount := 1 }

/-- Primary startup: `availableParallelism()` workers are forked, each running
`workerMain` on its inherited environment. -/
def primaryStart (numCPUs : Nat) : List Worker :=
  (forkEnvs numCPUs).map workerMain

/-- Numeric value of a decimal digit character, as computed by
`String.toNat?`. -/
def digitVal (c : Char) : Nat := c.toNat - '0'.toNat

/-- The decimal digit characters of `n`, most significant first; reference
form of core's `Nat.toDigits 10`, phrased through Mathlib's `Nat.digits`. -/
def decChars (n : Nat) : List Char :=
  if n = 0 then ['0'] else ((Nat.digits 10 n).map Nat.digitChar).reverse

/-- Concrete fixture: the freshly created, empty messages table. -/
def emptyStore : Store := { rows := [], seqCounter := 0 }

/-- Concrete fixture: the row committed for token "t1", content "hi". -/
def row1 : Row := { id := 1, client_offset := "t1", content := "hi" }

/-- Concrete fixture: the store after one successful insert. -/
def storeOne : Store := { rows := [row1], seqCounter := 1 }

/-- Concrete fixture: a three-row store, tokens "t1" "t2" "t3". -/
def storeThree : Store :=
  { rows := [{ id := 1, client_offset := "t1", content := "hi" },
             { id := 2, client_offset := "t2", content := "yo" },
             { id := 3, client_offset := "t3", content := "ok" }],
    seqCounter := 3 }

/-- Concrete fixture: a session attached to worker 0. -/
def sessA : Session := { sid := "a", worker := 0, inbox := [] }

/-- Concrete fixture: a session attached to worker 1. -/
def sessB : Session := { sid := "b", worker := 1, inbox := [] }

/-- Concrete fixture: a cluster with one session on each of two workers. -/
def twoSessions : ClusterState := { sessions := [sessA, sessB] }

/-- Concrete fixture: a non-recovered connection with no stated offset. -/
def freshConn : ConnInput := { recovered := false, serverOffset := none }

/-- Concrete fixture: a recovered connection. -/
def recoveredConn : ConnInput := { recovered := true, serverOffset := none }

theorem decChars_step (n : Nat) (h : n / 10 ≠ 0) :
    decChars n = decChars (n / 10) ++ [Nat.digitChar (n % 10)] := by
  have hn : n ≠ 0 := by
    intro h0
    exact h (by simp [h0])
  rw [decChars, decChars, if_neg hn, if_neg h,
    Nat.digits_def' (by norm_num : (1:Nat) < 10) (Nat.pos_of_ne_zero hn)]
  simp

theorem toDigitsCore_eq (fuel : Nat) :
    ∀ (n : Nat) (acc : List Char), n < fuel →
      Nat.toDigitsCore 10 fuel n acc = decChars n ++ acc := by
  induction fuel with
  | zero => intro n acc h; omega
  | succ fuel ih =>
    intro n acc h
    simp only [Nat.toDigitsCore]
    by_cases h10 : n / 10 = 0
    · simp only [h10, if_pos]
      by_cases hn : n = 0
      · subst hn; rfl
      · have hlt : n < 10 := by omega
        rw [decChars, if_neg hn,
          Nat.digits_def' (by norm_num : (1:Nat) < 10) (Nat.pos_of_ne_zero hn),
          h10]
        simp
    · simp only [h10, if_neg, ite_false]
      have hstep : n / 10 < fuel := by
        have h1 : n / 10 < n := Nat.div_lt_self (by omega) (by norm_num)
        omega
      rw [ih (n / 10) (Nat.digitChar (n % 10) :: acc) hstep,
        decChars_step n h10]
      simp

theorem toDigits_eq (n : Nat) : Nat.toDigits 10 n = decChars n := by
  rw [Nat.toDigits]
  simpa using toDigitsCore_eq (n + 1) n [] (Nat.lt_succ_self n)

theorem digitChar_isDigit (d : Nat) (h : d < 10) :
    (Nat.digitChar d).isDigit = true := by
  interval_cases d <;> decide

theorem digitVal_digitChar (d : Nat) (h : d < 10) :
    digitVal (Nat.digitChar d) = d := by
  interval_cases d <;> decide

theorem decChars_isDigit (n : Nat) : ∀ c ∈ decChars n, c.isDigit = true := by
  intro c hc
  rw [decChars] at hc
  by_cases hn : n = 0
  · rw [if_pos hn] at hc
    simp at hc
    subst hc
    decide
  · rw [if_neg hn] at hc
    simp only [List.mem_reverse, List.mem_map] at hc
    obtain ⟨d, hd, rfl⟩ := hc
    exact digitChar_isDigit d (Nat.digits_lt_base (by norm_num) hd)

theorem decChars_ne_nil (n : Nat) : decChars n ≠ [] := by
  rw [decChars]
  by_cases hn : n = 0
  · simp [hn]
  · simp [hn, Nat.digits_ne_nil_iff_ne_zero]

theorem foldl_digits (l : List Nat) (h : ∀ d ∈ l, d < 10) :
    ∀ i : Nat,
      List.foldl (fun m c => m * 10 + digitVal c) i
        ((l.map Nat.digitChar).reverse)
      = i * 10 ^ l.length + Nat.ofDigits 10 l := by
  induction l with
  | nil => intro i; simp [Nat.ofDigits_nil]
  | cons d t ih =>
    intro i
    rw [List.map_cons, List.reverse_cons, List.foldl_append,
      ih (fun x hx => h x (List.mem_cons_of_mem _ hx)) i]
    simp only [List.foldl_cons, List.foldl_nil]
    rw [digitVal_digitChar d (h d (List.mem_cons_self d t)), Nat.ofDigits_cons,
      List.length_cons]
    ring

theorem foldl_decChars (n : Nat) :
    List.foldl (fun m c => m * 10 + digitVal c) 0 (decChars n) = n := by
  by_cases hn : n = 0
  · subst hn; decide
  · rw [decChars, if_neg hn,
      foldl_digits _ (fun d hd => Nat.digits_lt_base (by norm_num) hd) 0]
    simpa using Nat.ofDigits_digits 10 n

theorem repr_data (n : Nat) : (Nat.repr n).data = decChars n := by
  rw [Nat.repr, toDigits_eq]
  rfl

/-- The decimal rendering of a natural number parses back to itself:
`parseInt(n.toString(), 10) = n`. -/
theorem toNat?_repr (n : Nat) : (Nat.repr n).toNat? = some n := by
  have hnat : (Nat.repr n).isNat = true := by
    rw [String.isNat, Bool.and_eq_true]
    constructor
    · rw [Bool.not_eq_true']
      rw [Bool.eq_false_iff]
      intro he
      have : (Nat.repr n).data = [] := by
        rw [String.isEmpty_iff] at he
        rw [he]
      rw [repr_data] at this
      exact decChars_ne_nil n this
    · rw [String.all_iff]
      rw [repr_data]
      exact decChars_isDigit n
  rw [String.toNat?, if_pos hnat, String.foldl_eq, repr_data]
  exact congrArg some (foldl_decChars n)

/-- Well-formedness of a store, as SQLite maintains it for this table: the
b-tree is in strictly ascending rowid order, and every rowid is positive and
at most the AUTOINCREMENT sequence value. -/
def Store.WF (st : Store) : Prop :=
  st.rows.Pairwise (fun a b => a.id < b.id) ∧
  ∀ r ∈ st.rows, 0 < r.id ∧ r.id ≤ st.seqCounter

instance (st : Store) : Decidable st.WF := by
  unfold Store.WF
  infer_instance

/-- Unfolding of the handler on a fresh token: the row is appended with the
next sequence number, which is broadcast, and the callback runs once. -/
theorem handleChatMessage_fresh (st : Store) (msg tok : String)
    (htok : hasToken st tok = false) :
    handleChatMessage st msg tok =
      { store := { rows := st.rows ++
                     [{ id := st.seqCounter + 1, client_offset := tok,
                        content := msg }],
                   seqCounter := st.seqCounter + 1 },
        broadcast := some (msg, st.seqCounter + 1), ackCount := 1,
        logged := false } := by
  rw [handleChatMessage, dbRunInsert, if_neg (by simp [htok])]
  rfl

/-- Unfolding of the handler on a duplicate token: the UNIQUE violation throws
errno 19, the catch branch runs the callback, and nothing else happens. -/
theorem handleChatMessage_dup (st : Store) (msg tok : String)
    (htok : hasToken st tok = true) :
    handleChatMessage st msg tok =
      { store := st, broadcast := none, ackCount := 1, logged := false } := by
  rw [handleChatMessage, dbRunInsert, if_pos (by simp [htok])]
  rfl

/-- A fault-free handler run preserves store well-formedness. -/
theorem handleChatMessage_wf (st : Store) (msg tok : String) (hWF : st.WF) :
    (handleChatMessage st msg tok).store.WF := by
  by_cases htok : hasToken st tok
  · rw [handleChatMessage_dup st msg tok htok]
    exact hWF
  · rw [handleChatMessage_fresh st msg tok (by simpa using htok)]
    obtain ⟨hpair, hbound⟩ := hWF
    constructor
    · rw [List.pairwise_append]
      refine ⟨hpair, by simp, ?_⟩
      intro a ha b hb
      simp only [List.mem_singleton] at hb
      subst hb
      have := hbound a ha
      show a.id < st.seqCounter + 1
      omega
    · intro r hr
      show 0 < r.id ∧ r.id ≤ st.seqCounter + 1
      rw [List.mem_append] at hr
      rcases hr with hr | hr
      · have := hbound r hr
        omega
      · simp only [List.mem_singleton] at hr
        subst hr
        show 0 < st.seqCounter + 1 ∧ st.seqCounter + 1 ≤ st.seqCounter + 1
        omega

/-- C1: calling the store's append twice with the same token yields the same
sequence number (the single stored row for the token keeps the sequence the
first call assigned), exactly one row for the token exists afterwards, and the
second call does not fail the caller (its callback still runs once). -/
theorem C1_append_idempotent (st : Store) (msg msg2 tok : String)
    (htok : hasToken st tok = false) :
    ∃ s : Nat,
      (handleChatMessage st msg tok).broadcast = some (msg, s) ∧
      (handleChatMessage (handleChatMessage st msg tok).store msg2 tok).store
        = (handleChatMessage st msg tok).store ∧
      (handleChatMessage (handleChatMessage st msg tok).store msg2 tok).ackCount
        = 1 ∧
      ((handleChatMessage (handleChatMessage st msg tok).store msg2 tok).store.rows.countP
        (fun r => r.client_offset == tok)) = 1 ∧
      ∀ r ∈ (handleChatMessage (handleChatMessage st msg tok).store msg2
               tok).store.rows,
        r.client_offset = tok → r.id = s := by
  have hfresh := handleChatMessage_fresh st msg tok htok
  have hdup : hasToken (handleChatMessage st msg tok).store tok = true := by
    rw [hfresh]
    simp [hasToken]
  have habsent : ∀ r ∈ st.rows, ¬(r.client_offset = tok) := by
    intro r hr heq
    have : hasToken st tok = true := by
      rw [hasToken, List.any_eq_true]
      exact ⟨r, hr, by simp [heq]⟩
    rw [htok] at this
    exact absurd this (by simp)
  refine ⟨st.seqCounter + 1, ?_, ?_, ?_, ?_, ?_⟩
  · rw [hfresh]
  · rw [handleChatMessage_dup _ msg2 tok hdup]
  · rw [handleChatMessage_dup _ msg2 tok hdup]
  · rw [handleChatMessage_dup _ msg2 tok hdup, hfresh]
    rw [List.countP_append, List.countP_eq_zero.mpr (by
      intro r hr
      simpa using habsent r hr)]
    simp
  · rw [handleChatMessage_dup _ msg2 tok hdup, hfresh]
    intro r hr heq
    simp only [List.mem_append, List.mem_singleton] at hr
    rcases hr with hr | hr
    · exact absurd heq (habsent r hr)
    · rw [hr]

/-- C1 witness: the theorem applied to the empty store and token "t1". -/
theorem C1_append_idempotent_witness :
    hasToken emptyStore "t1" = false ∧
    ∃ s : Nat,
      (handleChatMessage emptyStore "hi" "t1").broadcast = some ("hi", s) ∧
      (handleChatMessage (handleChatMessage emptyStore "hi" "t1").store
        "hi" "t1").store
        = (handleChatMessage emptyStore "hi" "t1").store ∧
      (handleChatMessage (handleChatMessage emptyStore "hi" "t1").store
        "hi" "t1").ackCount = 1 ∧
      ((handleChatMessage (handleChatMessage emptyStore "hi" "t1").store
        "hi" "t1").store.rows.countP (fun r => r.client_offset == "t1")) = 1 ∧
      ∀ r ∈ (handleChatMessage (handleChatMessage emptyStore "hi" "t1").store
        "hi" "t1").store.rows,
        r.client_offset = "t1" → r.id = s :=
  ⟨by decide, C1_append_idempotent emptyStore "hi" "hi" "t1" (by decide)⟩

/-- C2: when the submitted token is already present in the store, the handler
invokes the acknowledgment callback, publishes no broadcast event to any
session, and leaves the store unchanged. -/
theorem C2_duplicate_ack_no_broadcast (cs : ClusterState) (st : Store)
    (w0 : Nat) (msg tok : String) (htok : hasToken st tok = true) :
    (handleChatMessage st msg tok).broadcast = none ∧
    (handleChatMessage st msg tok).ackCount = 1 ∧
    (handleChatMessage st msg tok).store = st ∧
    (processClientMessage cs st w0 msg tok).cluster = cs := by
  have hdup := handleChatMessage_dup st msg tok htok
  refine ⟨by rw [hdup], by rw [hdup], by rw [hdup], ?_⟩
  rw [processClientMessage]
  simp only [hdup]

/-- C2 witness: a store already holding token "t1". -/
theorem C2_duplicate_ack_no_broadcast_witness :
    hasToken storeOne "t1" = true ∧
    ((handleChatMessage storeOne "hi" "t1").broadcast = none ∧
     (handleChatMessage storeOne "hi" "t1").ackCount = 1 ∧
     (handleChatMessage storeOne "hi" "t1").store = storeOne ∧
     (processClientMessage twoSessions storeOne 0 "hi" "t1").cluster
       = twoSessions) :=
  ⟨by decide, C2_duplicate_ack_no_broadcast twoSessions storeOne 0 "hi" "t1"
    (by decide)⟩

/-- C3: a successful new insert is broadcast, with its assigned sequence, to
every connected session of every worker (the sender's own included), and the
acknowledgment callback runs exactly once, on the originating worker only. -/
theorem C3_new_insert_broadcast_all (cs : ClusterState) (st : Store) (w0 : Nat)
    (msg tok : String) (htok : hasToken st tok = false) :
    (processClientMessage cs st w0 msg tok).ackAt = [w0] ∧
    (processClientMessage cs st w0 msg tok).cluster.sessions
      = cs.sessions.map
          (fun s => { s with inbox := s.inbox ++ [(msg, st.seqCounter + 1)] }) := by
  rw [processClientMessage]
  simp only [handleChatMessage_fresh st msg tok htok]
  exact ⟨rfl, rfl⟩

/-- C3 witness: two sessions on different workers, the sender's own included;
both receive the broadcast, the ack fires once, on worker 0. -/
theorem C3_new_insert_broadcast_all_witness :
    hasToken emptyStore "t1" = false ∧
    ((processClientMessage twoSessions emptyStore 0 "hi" "t1").ackAt = [0] ∧
     (processClientMessage twoSessions emptyStore 0 "hi" "t1").cluster.sessions
       = twoSessions.sessions.map
           (fun s => { s with inbox := s.inbox ++ [("hi", emptyStore.seqCounter + 1)] })) :=
  ⟨by decide, C3_new_insert_broadcast_all twoSessions emptyStore 0 "hi" "t1"
    (by decide)⟩

/-- C5: when the transport reports the connection as recovered, the recovery
block delivers no replay messages, whatever the store holds and whatever a
read would have returned. -/
theorem C5_recovered_no_replay (i : ConnInput)
    (readResult : Except String (List Row)) (hrec : i.recovered = true) :
    (connectionDispatch i readResult).replayed = [] ∧
    ∀ st : Store, (connectionHandler st i).replayed = [] := by
  constructor
  · unfold connectionDispatch
    rw [if_pos hrec]
  · intro st
    unfold connectionHandler connectionDispatch
    rw [if_pos hrec]

/-- C5 witness: a recovered connection against a nonempty store replays
nothing. -/
theorem C5_recovered_no_replay_witness :
    recoveredConn.recovered = true ∧
    ((connectionDispatch recoveredConn (.ok storeThree.rows)).replayed = [] ∧
     ∀ st : Store, (connectionHandler st recoveredConn).replayed = []) :=
  ⟨by decide, C5_recovered_no_replay recoveredConn (.ok storeThree.rows)
    (by decide)⟩

/-- C6 counterexample: an errno-19 fault that is not the token-uniqueness
violation (for example a NOT NULL or CHECK constraint, which sqlite also
reports as SQLITE_CONSTRAINT = 19) is acknowledged and not logged, because the
catch branch classifies faults by `e.errno === 19` alone. -/
theorem C6_counterexample :
    ({ errno := 19, uniqueClientOffset := false } : SqliteErr).uniqueClientOffset
      = false ∧
    (chatMessageDispatch emptyStore "m"
      (.err { errno := 19, uniqueClientOffset := false })).logged = false ∧
    (chatMessageDispatch emptyStore "m"
      (.err { errno := 19, uniqueClientOffset := false })).ackCount = 1 := by
  refine ⟨rfl, ?_, ?_⟩ <;> rfl

/-- C6 (amended): a persistence error whose errno differs from 19 is logged,
the acknowledgment callback is not invoked, no broadcast occurs, and the store
is unchanged; faults with errno 19 — SQLITE_CONSTRAINT, which covers
constraint violations unrelated to the token as well — are instead
acknowledged as duplicates. -/
theorem C6_storage_fault_logged_no_ack (st : Store) (msg : String)
    (e : SqliteErr) (he : e.errno ≠ 19) :
    (chatMessageDispatch st msg (.err e)).logged = true ∧
    (chatMessageDispatch st msg (.err e)).ackCount = 0 ∧
    (chatMessageDispatch st msg (.err e)).broadcast = none ∧
    (chatMessageDispatch st msg (.err e)).store = st := by
  have hbeq : (e.errno == 19) = false := by
    simp [he]
  rw [chatMessageDispatch, hbeq]
  exact ⟨rfl, rfl, rfl, rfl⟩

/-- C6 witness: an I/O fault (errno 10, SQLITE_IOERR) is logged and not
acknowledged. -/
theorem C6_storage_fault_logged_no_ack_witness :
    ({ errno := 10, uniqueClientOffset := false } : SqliteErr).errno ≠ 19 ∧
    ((chatMessageDispatch emptyStore "m"
        (.err { errno := 10, uniqueClientOffset := false })).logged = true ∧
     (chatMessageDispatch emptyStore "m"
        (.err { errno := 10, uniqueClientOffset := false })).ackCount = 0 ∧
     (chatMessageDispatch emptyStore "m"
        (.err { errno := 10, uniqueClientOffset := false })).broadcast = none ∧
     (chatMessageDispatch emptyStore "m"
        (.err { errno := 10, uniqueClientOffset := false })).store
       = emptyStore) :=
  ⟨by decide, C6_storage_fault_logged_no_ack emptyStore
    "m" { errno := 10, uniqueClientOffset := false } (by decide)⟩

/-- C4: a not-recovered connection is sent exactly the stored messages with
sequence strictly greater than its lastKnownSequence (0 when absent, in which
case the whole log is replayed), in ascending sequence order, each with its
original sequence number, and nothing else. -/
theorem C4_replay_exact (st : Store) (i : ConnInput) (hWF : st.WF)
    (hrec : i.recovered = false) :
    (∀ c n, (c, n) ∈ (connectionHandler st i).replayed ↔
        ∃ row ∈ st.rows,
          row.content = c ∧ row.id = n ∧ effectiveOffset i < n) ∧
    ((connectionHandler st i).replayed.map Prod.snd).Pairwise (· < ·) ∧
    (i.serverOffset = none →
      (connectionHandler st i).replayed
        = st.rows.map (fun row => (row.content, row.id))) := by
  have hrepl : (connectionHandler st i).replayed
      = (st.rows.filter (fun r => effectiveOffset i < r.id)).map
          (fun r => (r.content, r.id)) := by
    unfold connectionHandler connectionDispatch readFrom
    rw [if_neg (by simp [hrec])]
  refine ⟨?_, ?_, ?_⟩
  · intro c n
    rw [hrepl]
    simp only [List.mem_map, List.mem_filter, decide_eq_true_eq,
      Prod.mk.injEq]
    constructor
    · rintro ⟨row, ⟨hmem, hlt⟩, hc, hn⟩
      exact ⟨row, hmem, hc, hn, by rw [hn] at hlt; exact hlt⟩
    · rintro ⟨row, hmem, hc, hn, hlt⟩
      exact ⟨row, ⟨hmem, by rw [hn]; exact hlt⟩, hc, hn⟩
  · rw [hrepl, List.map_map, List.pairwise_map]
    exact (hWF.1.filter _).imp (fun h => h)
  · intro hnone
    rw [hrepl]
    have : st.rows.filter (fun r => effectiveOffset i < r.id) = st.rows := by
      apply List.filter_eq_self.mpr
      intro r hr
      have hpos := (hWF.2 r hr).1
      simp [effectiveOffset, hnone, hpos]
    rw [this]

/-- C4 witness: a client reconnecting with lastKnownSequence 1 against a
three-message store is sent exactly messages 2 and 3. -/
theorem C4_replay_exact_witness :
    storeThree.WF ∧
    ({ recovered := false, serverOffset := some 1 } : ConnInput).recovered
      = false ∧
    ((∀ c n,
        (c, n) ∈ (connectionHandler storeThree
          { recovered := false, serverOffset := some 1 }).replayed ↔
        ∃ row ∈ storeThree.rows,
          row.content = c ∧ row.id = n ∧
          effectiveOffset { recovered := false, serverOffset := some 1 } < n) ∧
     ((connectionHandler storeThree
        { recovered := false, serverOffset := some 1 }).replayed.map
          Prod.snd).Pairwise (· < ·) ∧
     (({ recovered := false, serverOffset := some 1 } : ConnInput).serverOffset
        = none →
      (connectionHandler storeThree
        { recovered := false, serverOffset := some 1 }).replayed
        = storeThree.rows.map (fun row => (row.content, row.id)))) :=
  ⟨by decide, by decide,
   C4_replay_exact storeThree { recovered := false, serverOffset := some 1 }
     (by decide) (by decide)⟩

/-- C7: when the recovery read fails, the error is logged, nothing is
replayed, the connection stays active rather than being torn down, and a later
live broadcast is still delivered to that session's inbox. -/
theorem C7_replay_fault_connection_stays (i : ConnInput) (emsg : String)
    (cs : ClusterState) (sess : Session) (ev : String × Nat)
    (hrec : i.recovered = false) :
    (connectionDispatch i (.error emsg)).replayLogged = true ∧
    (connectionDispatch i (.error emsg)).replayed = [] ∧
    (connectionDispatch i (.error emsg)).active = true ∧
    { sess with inbox := sess.inbox ++ [ev] } ∈
      (deliverBroadcast
        (postConnect cs sess (connectionDispatch i (.error emsg)))
        ev).sessions := by
  have hd : connectionDispatch i (.error emsg)
      = { replayed := [], replayLogged := true, active := true } := by
    unfold connectionDispatch
    rw [if_neg (by simp [hrec])]
  rw [hd]
  refine ⟨rfl, rfl, rfl, ?_⟩
  unfold postConnect connectSocket deliverBroadcast
  simp only [if_true, List.map_append, List.map_cons, List.map_nil]
  exact List.mem_append_right _ (List.mem_singleton.mpr rfl)

/-- C7 witness: a failed replay read on a fresh connection; the session still
receives the next broadcast. -/
theorem C7_replay_fault_connection_stays_witness :
    freshConn.recovered = false ∧
    ((connectionDispatch freshConn (.error "disk fault")).replayLogged
       = true ∧
     (connectionDispatch freshConn (.error "disk fault")).replayed = [] ∧
     (connectionDispatch freshConn (.error "disk fault")).active = true ∧
     { sessA with inbox := sessA.inbox ++ [("hi", 1)] } ∈
       (deliverBroadcast
         (postConnect twoSessions sessA
           (connectionDispatch freshConn (.error "disk fault")))
         ("hi", 1)).sessions) :=
  ⟨by decide, C7_replay_fault_connection_stays freshConn "disk fault"
    twoSessions sessA ("hi", 1) (by decide)⟩

theorem range'_chain' (k : Nat) :
    ∀ s : Nat, (List.range' s k).Chain' (fun a b => b = a + 1) := by
  induction k with
  | zero => intro s; simp
  | succ k ih =>
    intro s
    cases k with
    | zero => simp
    | succ m =>
      rw [List.range'_succ, List.range'_succ, List.chain'_cons]
      refine ⟨rfl, ?_⟩
      rw [← List.range'_succ]
      exact ih (s + 1)

theorem runSubmissions_seqs (subs : List (String × String)) :
    ∀ st : Store,
      ∃ k, (runSubmissions st subs).2 = List.range' (st.seqCounter + 1) k := by
  induction subs with
  | nil => intro st; exact ⟨0, rfl⟩
  | cons p rest ih =>
    intro st
    obtain ⟨msg, tok⟩ := p
    by_cases h : hasToken st tok
    · obtain ⟨k, hk⟩ := ih st
      refine ⟨k, ?_⟩
      simp only [runSubmissions, handleChatMessage_dup st msg tok h]
      exact hk
    · obtain ⟨k, hk⟩ := ih (handleChatMessage st msg tok).store
      rw [handleChatMessage_fresh st msg tok (by simpa using h)] at hk
      refine ⟨k + 1, ?_⟩
      simp only [runSubmissions,
        handleChatMessage_fresh st msg tok (by simpa using h)]
      rw [List.range'_succ]
      exact congrArg (fun l => (st.seqCounter + 1) :: l) hk

/-- C8: over any run of submissions against one store, the sequence numbers
assigned to the successful new inserts are, in insertion order, strictly
increasing and gapless (each is its predecessor plus one). -/
theorem C8_sequences_strictly_increasing_gapless (st : Store)
    (subs : List (String × String)) :
    ((runSubmissions st subs).2).Chain' (fun a b => b = a + 1) ∧
    ((runSubmissions st subs).2).Pairwise (· < ·) := by
  obtain ⟨k, hk⟩ := runSubmissions_seqs subs st
  rw [hk]
  exact ⟨range'_chain' k _, List.pairwise_lt_range' _ _⟩

/-- C9: the primary starts exactly `availableParallelism()` workers, their
ports are 3000, 3001, ... in fork order (each environment's PORT string parses
back to the intended number), all ports are distinct, and every worker opens
exactly one network listener. -/
theorem C9_workers_ports (numCPUs : Nat) :
    (primaryStart numCPUs).length = numCPUs ∧
    (primaryStart numCPUs).map Worker.port = List.range' basePort numCPUs ∧
    ((primaryStart numCPUs).map Worker.port).Pairwise (· ≠ ·) ∧
    ∀ w ∈ primaryStart numCPUs, w.listenerCount = 1 := by
  have hfun : ∀ i : Nat,
      (workerMain (some (Nat.repr (basePort + i)))).port = basePort + i := by
    intro i
    unfold workerMain parseIntPort
    simp [toNat?_repr]
  have hmap : (primaryStart numCPUs).map Worker.port
      = List.range' basePort numCPUs := by
    calc (primaryStart numCPUs).map Worker.port
        = (List.range numCPUs).map
            (fun i => (workerMain (some (Nat.repr (basePort + i)))).port) := by
          unfold primaryStart forkEnvs
          rw [List.map_map, List.map_map]
          rfl
      _ = (List.range numCPUs).map (fun i => basePort + i) :=
          List.map_congr_left (fun i _ => hfun i)
      _ = List.range' basePort numCPUs :=
          (List.range'_eq_map_range _ _).symm
  refine ⟨?_, hmap, ?_, ?_⟩
  · unfold primaryStart forkEnvs
    simp
  · rw [hmap]
    exact (List.pairwise_lt_range' _ _).imp (fun h => Nat.ne_of_lt h)
  · intro w hw
    unfold primaryStart forkEnvs at hw
    rw [List.map_map, List.mem_map] at hw
    obtain ⟨idx, _, rfl⟩ := hw
    rfl

/-- C10: a new insert's live broadcast carries exactly the row id persisted
for it, and any later recovery replay whose cursor is below that id emits the
same (content, sequence) pair; a sequence seen on either path is therefore a
valid lastKnownSequence cursor. -/
theorem C10_broadcast_replay_agree (st : Store) (msg tok : String)
    (htok : hasToken st tok = false) :
    ∃ s : Nat,
      (handleChatMessage st msg tok).broadcast = some (msg, s) ∧
      (∃ row ∈ (handleChatMessage st msg tok).store.rows,
        row.id = s ∧ row.content = msg ∧ row.client_offset = tok) ∧
      ∀ o : Nat, o < s →
        (msg, s) ∈ (connectionHandler (handleChatMessage st msg tok).store
          { recovered := false, serverOffset := some o }).replayed := by
  rw [handleChatMessage_fresh st msg tok htok]
  refine ⟨st.seqCounter + 1, rfl, ?_, ?_⟩
  · exact ⟨{ id := st.seqCounter + 1, client_offset := tok, content := msg },
      List.mem_append_right _ (List.mem_singleton.mpr rfl), rfl, rfl, rfl⟩
  · intro o ho
    unfold connectionHandler connectionDispatch readFrom
    rw [if_neg (by simp)]
    simp only [List.mem_map, List.mem_filter, decide_eq_true_eq]
    refine ⟨{ id := st.seqCounter + 1, client_offset := tok, content := msg },
      ⟨List.mem_append_right _ (List.mem_singleton.mpr rfl), ?_⟩, rfl⟩
    simpa [effectiveOffset] using ho

/-- C10 witness: the first insert into an empty store broadcasts sequence 1,
and a replay from cursor 0 re-emits ("hi", 1). -/
theorem C10_broadcast_replay_agree_witness :
    hasToken emptyStore "hi" = false ∧
    ∃ s : Nat,
      (handleChatMessage emptyStore "hi" "hi").broadcast = some ("hi", s) ∧
      (∃ row ∈ (handleChatMessage emptyStore "hi" "hi").store.rows,
        row.id = s ∧ row.content = "hi" ∧ row.client_offset = "hi") ∧
      ∀ o : Nat, o < s →
        ("hi", s) ∈ (connectionHandler
          (handleChatMessage emptyStore "hi" "hi").store
          { recovered := false, serverOffset := some o }).replayed :=
  ⟨by decide, C10_broadcast_replay_agree emptyStore "hi" "hi" (by decide)⟩
